import Mathlib

/-!
Shallow embedding of `src/ultrasound_validation.py` (class `UltrasoundDataEntry`),
the bladder-ultrasound measurement recorder.

Modelling conventions:
- Python floats for dimensions are embedded as `ℚ` (the inputs are decimal
  literals); the computed volume, which involves `np.pi`, lives in `ℝ`.
- The mutable `self.entries` list is threaded explicitly as a
  `List MeasurementRecord` argument and result.
- Exceptions (`ValueError`, `KeyError`, `NameError`) are `Except String`;
  the caught `FileNotFoundError` in `auto_entry` is the `none` case of the
  file argument.
- A pandas row from `df.iterrows()` is a `CsvRow` of `Option`-valued cells:
  `none` means the column is absent from the file or the cell is NaN/blank
  (pandas reads a blank CSV cell as NaN, and `pd.notna` is false on it).
- A pandas `DataFrame` is a header (list of column names) plus a list of
  rows; `pd.DataFrame(entries)` on a non-empty list of dicts takes the dict
  keys (in insertion order) as columns, and on the empty list yields a frame
  with no columns at all.
- Console printing is not modelled, except that `auto_entry`'s caught
  file-not-found report is returned as a list of failure messages.
-/

/-- Python `str.strip()`: drop leading and trailing whitespace. -/
def pyStrip (s : String) : String :=
  String.mk (((s.data.dropWhile Char.isWhitespace).reverse.dropWhile Char.isWhitespace).reverse)

/-- Python `str.lower()`: lower-case every character. -/
def pyLower (s : String) : String :=
  String.mk (s.data.map Char.toLower)

/-- A row produced by `pd.read_csv` + `df.iterrows()`: each recognized column
either carries a value or is absent/NaN (`none`). Dimension and voided-volume
cells are already numeric (pandas coerces them); `float(...)` on them is the
identity in this model. -/
structure CsvRow where
  patient_id : Option String
  measurement_time : Option String
  length_cm : Option ℚ
  width_cm : Option ℚ
  depth_cm : Option ℚ
  voided_volume_ml : Option ℚ
  context : Option String
  notes : Option String

/-- The entry dictionary built by `manual_entry` / `_process_csv_row`,
with fields in the source's key order. -/
structure MeasurementRecord where
  patient_id : String
  timestamp : String
  length_cm : ℚ
  width_cm : ℚ
  depth_cm : ℚ
  voided_volume_ml : Option ℚ
  context : String
  notes : String
  calculated_volume_ml : ℝ
  source : String

/-- The dict keys of an entry, in insertion order: the columns of
`pd.DataFrame(self.entries)` for a non-empty store, and the header written
by `to_csv`. -/
def recordColumns : List String :=
  ["patient_id", "timestamp", "length_cm", "width_cm", "depth_cm",
   "voided_volume_ml", "context", "notes", "calculated_volume_ml", "source"]

/-- Source `_calculate_volume` (lines 211-214):
`(4/3) * np.pi * (length/2) * (width/2) * (depth/2) * 1000`. -/
noncomputable def _calculate_volume (length width depth : ℚ) : ℝ :=
  (4 / 3) * Real.pi * ((length : ℝ) / 2) * ((width : ℝ) / 2) * ((depth : ℝ) / 2) * 1000

/-- Source `_validate_measurements` (lines 202-209): raises `ValueError` on the
first non-positive dimension, in the order length, width, depth. -/
def _validate_measurements (length width depth : ℚ) : Except String Unit :=
  if length ≤ 0 then .error ("Length must be positive, got " ++ toString length ++ "cm")
  else if width ≤ 0 then .error ("Width must be positive, got " ++ toString width ++ "cm")
  else if depth ≤ 0 then .error ("Depth must be positive, got " ++ toString depth ++ "cm")
  else .ok ()

/-- Source `_process_csv_row` (lines 136-199), parameterized by the volume
function it calls at line 183, so that theorems can state that the volume
estimator is never reached on invalid rows. Steps in source order: extract
`patient_id`, `measurement_time`, the three dimensions (a missing required
column raises `KeyError`), validate, default the optional fields, compute the
volume, build the entry. -/
def _process_csv_row_gen (vol : ℚ → ℚ → ℚ → ℝ) (row : CsvRow) :
    Except String MeasurementRecord :=
  match row.patient_id with
  | none => .error "KeyError: patient_id"
  | some pid =>
    match row.measurement_time with
    | none => .error "KeyError: measurement_time"
    | some ts =>
      match row.length_cm with
      | none => .error "KeyError: length_cm"
      | some length =>
        match row.width_cm with
        | none => .error "KeyError: width_cm"
        | some width =>
          match row.depth_cm with
          | none => .error "KeyError: depth_cm"
          | some depth =>
            match _validate_measurements length width depth with
            | .error e => .error e
            | .ok _ =>
              let voided_volume : Option ℚ := row.voided_volume_ml
              let context : String :=
                match row.context with
                | none => "unknown"
                | some c => pyLower (pyStrip c)
              let notes : String :=
                match row.notes with
                | none => ""
                | some n => pyStrip n
              .ok { patient_id := pyStrip pid
                    timestamp := pyStrip ts
                    length_cm := length
                    width_cm := width
                    depth_cm := depth
                    voided_volume_ml := voided_volume
                    context := context
                    notes := notes
                    calculated_volume_ml := vol length width depth
                    source := "csv_import" }

/-- Source `_process_csv_row` with the volume function it actually calls. -/
noncomputable def _process_csv_row : CsvRow → Except String MeasurementRecord :=
  _process_csv_row_gen _calculate_volume

/-- Source `manual_entry` (lines 32-85), faithful to the code as written: the
console inputs are the arguments. After stripping the string inputs and
validating the dimensions, the entry dict at line 79 reads the name
`calculated_volume`, which is never assigned anywhere in the function, so
constructing the entry raises `NameError` and nothing is appended. -/
def manual_entry (patient_id timestamp_str : String) (length width depth : ℚ)
    (_voided_volume : Option ℚ) (context notes : String)
    (_entries : List MeasurementRecord) :
    Except String (MeasurementRecord × List MeasurementRecord) :=
  let _pid := pyStrip patient_id
  let _ts := pyStrip timestamp_str
  let _ctx := pyStrip context   -- line 63: `.strip()` only, no `.lower()`
  let _nts := pyStrip notes
  match _validate_measurements length width depth with
  | .error e => .error e
  | .ok _ => .error "NameError: name calculated_volume is not defined"

/-- Modelled from the spec: the source's `manual_entry` builds its entry from
the name `calculated_volume` that is never assigned (a `NameError`); this
definition supplies the evidently intended assignment
`calculated_volume = self._calculate_volume(length, width, depth)`, per the
spec sentence that `calculated_volume_ml` is derived from the three dimensions
via the volume formula at record-construction time. Every other step follows
the source: strings stripped (`context` is NOT lower-cased on this path),
validation before construction, `source` tag `manual_entry`, append to the
store. -/
noncomputable def manual_entry_intended (patient_id timestamp_str : String)
    (length width depth : ℚ) (voided_volume : Option ℚ) (context notes : String)
    (entries : List MeasurementRecord) :
    Except String (MeasurementRecord × List MeasurementRecord) :=
  let pid := pyStrip patient_id
  let ts := pyStrip timestamp_str
  let ctx := pyStrip context   -- line 63: `.strip()` only, no `.lower()`
  let nts := pyStrip notes
  match _validate_measurements length width depth with
  | .error e => .error e
  | .ok _ =>
    let entry : MeasurementRecord :=
      { patient_id := pid
        timestamp := ts
        length_cm := length
        width_cm := width
        depth_cm := depth
        voided_volume_ml := voided_volume
        context := ctx
        notes := nts
        calculated_volume_ml := _calculate_volume length width depth
        source := "manual_entry" }
    .ok (entry, entries ++ [entry])

/-- The row loop of `auto_entry` (lines 116-124): process each row and append
it to the store; an exception from `_process_csv_row` propagates, leaving the
entries appended so far in the store. Returns the propagated exception (if
any) and the final store. -/
noncomputable def processRows : List CsvRow → List MeasurementRecord →
    Option String × List MeasurementRecord
  | [], entries => (none, entries)
  | row :: rest, entries =>
    match _process_csv_row row with
    | .error e => (some e, entries)
    | .ok entry => processRows rest (entries ++ [entry])

/-- Source `auto_entry` (lines 87-134). The filesystem is abstracted as the
`file` argument: `none` when `pd.read_csv` would raise `FileNotFoundError`
(the only exception the `try` block catches), `some rows` otherwise. Returns
(result, final store, failure reports): on success the method returns
`self.entries` (the whole store); on file-not-found it reports the failure
and returns `[]` with the store untouched; any per-row exception propagates
uncaught with the store keeping the rows appended before the failure. -/
noncomputable def auto_entry (csv_filepath : String) (file : Option (List CsvRow))
    (entries : List MeasurementRecord) :
    Except String (List MeasurementRecord) × List MeasurementRecord × List String :=
  match file with
  | some rows =>
    match processRows rows entries with
    | (none, entries') => (.ok entries', entries', [])
    | (some e, entries') => (.error e, entries', [])
  | none => (.ok [], entries, ["File not found: " ++ csv_filepath])

/-- A pandas `DataFrame`: column names plus rows. -/
structure DataFrame (α : Type) where
  header : List String
  rows : List α

/-- `pd.DataFrame(entries)`: the dict keys become the columns; on an empty
list pandas produces a frame with no columns. -/
def entriesToDataFrame (entries : List MeasurementRecord) : DataFrame MeasurementRecord :=
  { header := if entries.isEmpty then [] else recordColumns
    rows := entries }

/-- Source `get_entries` (lines 228-237): `pd.DataFrame(self.entries)`. -/
def get_entries (entries : List MeasurementRecord) : DataFrame MeasurementRecord :=
  entriesToDataFrame entries

/-- Source `clear_entries` (lines 239-246): `self.entries = []`. -/
def clear_entries (_entries : List MeasurementRecord) : List MeasurementRecord := []

/-- Source `save_to_csv` (lines 216-226). The destination file is `none` when
`os.path.exists` is false, otherwise the table `pd.read_csv` returns. The
store is turned into a frame; if the destination exists its rows come first
and the store's rows are concatenated after them (`pd.concat([existing, df])`
with `ignore_index=True`), and the result overwrites the destination. Column
alignment when the two headers differ (pandas takes a union) is not modelled:
the existing header is kept, which is exact whenever the existing file was
written by a previous save. -/
def save_to_csv (entries : List MeasurementRecord)
    (dest : Option (DataFrame MeasurementRecord)) : DataFrame MeasurementRecord :=
  let df := entriesToDataFrame entries
  match dest with
  | some existing => { header := existing.header, rows := existing.rows ++ df.rows }
  | none => df

/-- Rows that all process successfully, with their resulting records:
`processedOk rows = some recs` states that `_process_csv_row` succeeds on
every row, yielding `recs` in order. -/
noncomputable def processedOk : List CsvRow → Option (List MeasurementRecord)
  | [] => some []
  | row :: rest =>
    match _process_csv_row row with
    | .error _ => none
    | .ok entry => (processedOk rest).map (fun l => entry :: l)

-- Concrete sample data shared by witnesses and counterexamples.

/-- A well-formed batch row. -/
def goodRow : CsvRow :=
  { patient_id := some "P1"
    measurement_time := some "2024-01-15 10:30"
    length_cm := some 2
    width_cm := some 3
    depth_cm := some 4
    voided_volume_ml := none
    context := some "pre_void"
    notes := none }

/-- The record `_process_csv_row` produces from `goodRow`. -/
noncomputable def goodRec : MeasurementRecord :=
  { patient_id := "P1"
    timestamp := "2024-01-15 10:30"
    length_cm := 2
    width_cm := 3
    depth_cm := 4
    voided_volume_ml := none
    context := "pre_void"
    notes := ""
    calculated_volume_ml := _calculate_volume 2 3 4
    source := "csv_import" }

/-- A batch row with a non-positive dimension. -/
def badRow : CsvRow :=
  { patient_id := some "P2"
    measurement_time := some "2024-01-15 11:00"
    length_cm := some (-1)
    width_cm := some 2
    depth_cm := some 3
    voided_volume_ml := none
    context := none
    notes := none }

/-- The record `manual_entry_intended` produces from the sample manual input
whose context is typed as " PRE_VOID ". -/
noncomputable def manualRec : MeasurementRecord :=
  { patient_id := "P1"
    timestamp := "2024-01-15 10:30"
    length_cm := 2
    width_cm := 2
    depth_cm := 2
    voided_volume_ml := none
    context := "PRE_VOID"
    notes := ""
    calculated_volume_ml := _calculate_volume 2 2 2
    source := "manual_entry" }

/-- A batch row whose optional columns are all absent. -/
def defaultsRow : CsvRow :=
  { patient_id := some "P3"
    measurement_time := some "2024-02-01 09:00"
    length_cm := some 2
    width_cm := some 2
    depth_cm := some 2
    voided_volume_ml := none
    context := none
    notes := none }

/-- The record `_process_csv_row` produces from `defaultsRow`. -/
noncomputable def defaultsRec : MeasurementRecord :=
  { patient_id := "P3"
    timestamp := "2024-02-01 09:00"
    length_cm := 2
    width_cm := 2
    depth_cm := 2
    voided_volume_ml := none
    context := "unknown"
    notes := ""
    calculated_volume_ml := _calculate_volume 2 2 2
    source := "csv_import" }

/-- Helper: a prefix of rows that all succeed, followed by a failing row,
drives `processRows` to the failing row's error with exactly the successful
records appended. -/
theorem processRows_append_of_processedOk (pre : List CsvRow) (bad : CsvRow)
    (rest : List CsvRow) (entries recs : List MeasurementRecord) (e : String)
    (hpre : processedOk pre = some recs)
    (hbad : _process_csv_row bad = .error e) :
    processRows (pre ++ bad :: rest) entries = (some e, entries ++ recs) := by
  induction pre generalizing entries recs with
  | nil =>
    simp only [processedOk, Option.some.injEq] at hpre
    subst hpre
    simp [processRows, hbad]
  | cons r pre ih =>
    rw [processedOk] at hpre
    cases hr : _process_csv_row r with
    | error e' => rw [hr] at hpre; simp at hpre
    | ok entry =>
      rw [hr] at hpre
      obtain ⟨recs', h1, h2⟩ := Option.map_eq_some'.mp hpre
      subst h2
      simp only [List.cons_append, processRows, hr, List.append_eq]
      rw [ih _ _ h1]
      simp

/-- C1: for every length, width, depth the volume estimator returns
(4/3) · π · (length/2) · (width/2) · (depth/2) · 1000 millilitres; in
particular 2,2,2 gives (4/3)·π·1000 and 4,3,5 gives (4/3)·π·2·1.5·2.5·1000. -/
theorem C1_volume_formula :
    (∀ length width depth : ℚ, _calculate_volume length width depth =
      (4 / 3) * Real.pi * ((length : ℝ) / 2) * ((width : ℝ) / 2) *
        ((depth : ℝ) / 2) * 1000) ∧
    _calculate_volume 2 2 2 = (4 / 3) * Real.pi * 1000 ∧
    _calculate_volume 4 3 5 = (4 / 3) * Real.pi * 2 * 1.5 * 2.5 * 1000 := by
  refine ⟨fun length width depth => rfl, ?_, ?_⟩ <;>
    (unfold _calculate_volume; push_cast; norm_num)

/-- C2: `_validate_measurements` fails exactly when some dimension is ≤ 0 (any
positive value passes, with no upper bound), and a batch row carrying such an
invalid triple is processed to the same error no matter which volume function
is plugged in: the estimator is never invoked on it. -/
theorem C2_validation_iff_nonpositive (length width depth : ℚ) :
    ((∃ e, _validate_measurements length width depth = .error e) ↔
      (length ≤ 0 ∨ width ≤ 0 ∨ depth ≤ 0)) ∧
    (∀ (row : CsvRow) (vol vol' : ℚ → ℚ → ℚ → ℝ),
      row.length_cm = some length → row.width_cm = some width →
      row.depth_cm = some depth →
      (length ≤ 0 ∨ width ≤ 0 ∨ depth ≤ 0) →
      _process_csv_row_gen vol row = _process_csv_row_gen vol' row ∧
      ∃ e, _process_csv_row_gen vol row = .error e) := by
  constructor
  · unfold _validate_measurements
    split_ifs with h1 h2 h3 <;> simp_all
  · intro row vol vol' hl hw hd hbad
    have hv : ∃ e, _validate_measurements length width depth = .error e := by
      unfold _validate_measurements
      by_cases h1 : length ≤ 0
      · simp [h1]
      · by_cases h2 : width ≤ 0
        · simp [h1, h2]
        · have h3 : depth ≤ 0 := by tauto
          simp [h1, h2, h3]
    obtain ⟨e, hv⟩ := hv
    obtain ⟨p, t, lc, wc, dc, vv, cx, nt⟩ := row
    simp only at hl hw hd
    subst hl hw hd
    cases p <;> cases t <;> simp [_process_csv_row_gen, hv]

/-- C2 witness: the triple (-1, 2, 3) is rejected, and on the batch row
carrying it two different volume functions process to the same result. -/
theorem C2_validation_iff_nonpositive_witness :
    (∃ e, _validate_measurements (-1) 2 3 = .error e) ∧
    _process_csv_row_gen (fun _ _ _ => 0) badRow =
      _process_csv_row_gen (fun _ _ _ => 1) badRow :=
  ⟨(C2_validation_iff_nonpositive (-1) 2 3).1.mpr (Or.inl (by norm_num)),
   ((C2_validation_iff_nonpositive (-1) 2 3).2 badRow _ _ rfl rfl rfl
      (Or.inl (by norm_num))).1⟩

/-- C3 (code bug): the source's `manual_entry` builds its entry dict from the
name `calculated_volume`, which is never assigned in the function, so a valid
manual measurement raises `NameError` instead of constructing a record whose
`calculated_volume_ml` comes from the volume formula. -/
theorem C3_manual_entry_name_error :
    manual_entry "P1" "2024-01-15 10:30" 2 2 2 none "pre_void" "" [] =
      .error "NameError: name calculated_volume is not defined" := rfl

/-- C4: for positive dimensions, the estimated volume is strictly increasing
in each of the three arguments independently. -/
theorem C4_volume_strict_mono (length length' width width' depth depth' : ℚ)
    (hl : 0 < length) (hw : 0 < width) (hd : 0 < depth) :
    (length < length' →
      _calculate_volume length width depth < _calculate_volume length' width depth) ∧
    (width < width' →
      _calculate_volume length width depth < _calculate_volume length width' depth) ∧
    (depth < depth' →
      _calculate_volume length width depth < _calculate_volume length width depth') := by
  have hl' : (0 : ℝ) < (length : ℝ) := by exact_mod_cast hl
  have hw' : (0 : ℝ) < (width : ℝ) := by exact_mod_cast hw
  have hd' : (0 : ℝ) < (depth : ℝ) := by exact_mod_cast hd
  refine ⟨fun h => ?_, fun h => ?_, fun h => ?_⟩ <;>
    (have h' := (Rat.cast_lt (K := ℝ)).mpr h
     unfold _calculate_volume
     nlinarith [Real.pi_pos, mul_pos hl' (mul_pos hw' hd'),
       mul_pos (mul_pos Real.pi_pos (mul_pos hw' hd')) (sub_pos.mpr h'),
       mul_pos (mul_pos Real.pi_pos (mul_pos hl' hd')) (sub_pos.mpr h'),
       mul_pos (mul_pos Real.pi_pos (mul_pos hl' hw')) (sub_pos.mpr h')])

/-- C4 witness: the volume at (1,1,1) is below the volume at (2,1,1). -/
theorem C4_volume_strict_mono_witness :
    _calculate_volume 1 1 1 < _calculate_volume 2 1 1 :=
  (C4_volume_strict_mono 1 2 1 1 1 1 (by norm_num) (by norm_num) (by norm_num)).1
    (by norm_num)

/-- C5 counterexample: flushing an empty store to a nonexistent destination
writes a table with no columns at all, not the MeasurementRecord field-name
header the claim promises for every store. -/
theorem C5_empty_store_counterexample :
    (save_to_csv [] none).rows = [] ∧ (save_to_csv [] none).header ≠ recordColumns :=
  ⟨rfl, by decide⟩

/-- C5 (amended): flushing M store records onto an existing destination with N
rows yields N+M rows — the N existing rows first, verbatim, then the M store
rows in order, under the existing header; on a nonexistent destination the
store is written as a new table whose header is the field names whenever the
store is non-empty (pandas gives an empty store a frame with no columns). -/
theorem C5_save_append (store : List MeasurementRecord)
    (dest : DataFrame MeasurementRecord) :
    (save_to_csv store (some dest)).rows.length = dest.rows.length + store.length ∧
    (save_to_csv store (some dest)).rows = dest.rows ++ store ∧
    (save_to_csv store (some dest)).header = dest.header ∧
    (save_to_csv store none).rows = store ∧
    (store ≠ [] → (save_to_csv store none).header = recordColumns) := by
  refine ⟨?_, rfl, rfl, rfl, fun h => ?_⟩
  · simp [save_to_csv, entriesToDataFrame]
  · simp [save_to_csv, entriesToDataFrame, h]

/-- C5 witness: a one-record store flushed to a nonexistent destination is
written under the field-name header. -/
theorem C5_save_append_witness :
    (save_to_csv [goodRec] none).header = recordColumns :=
  (C5_save_append [goodRec] ⟨recordColumns, []⟩).2.2.2.2 (by simp)

/-- C6: a successfully normalized batch row has `voided_volume_ml` null exactly
when the cell is absent/blank and the coerced value otherwise, `context`
defaulting to "unknown" when absent/blank and `notes` to "" when absent. -/
theorem C6_batch_defaults (row : CsvRow) (rec : MeasurementRecord)
    (h : _process_csv_row row = .ok rec) :
    (row.voided_volume_ml = none → rec.voided_volume_ml = none) ∧
    (∀ v, row.voided_volume_ml = some v → rec.voided_volume_ml = some v) ∧
    (row.context = none → rec.context = "unknown") ∧
    (row.notes = none → rec.notes = "") := by
  obtain ⟨p, t, lc, wc, dc, vv, cx, nt⟩ := row
  unfold _process_csv_row _process_csv_row_gen at h
  cases p with
  | none => exact absurd h (by simp)
  | some pid =>
  cases t with
  | none => exact absurd h (by simp)
  | some ts =>
  cases lc with
  | none => exact absurd h (by simp)
  | some length =>
  cases wc with
  | none => exact absurd h (by simp)
  | some width =>
  cases dc with
  | none => exact absurd h (by simp)
  | some depth =>
  dsimp only at h ⊢
  cases hval : _validate_measurements length width depth with
  | error e => rw [hval] at h; exact absurd h (by simp)
  | ok u =>
    rw [hval] at h
    simp only [Except.ok.injEq] at h
    subst h
    refine ⟨fun hv => ?_, fun v hv => ?_, fun hcx => ?_, fun hnt => ?_⟩ <;>
      subst_vars <;> simp

/-- C6 witness: the batch row with every optional column absent yields a record
with null voided volume, context "unknown", and empty notes. -/
theorem C6_batch_defaults_witness :
    defaultsRec.voided_volume_ml = none ∧ defaultsRec.context = "unknown" ∧
      defaultsRec.notes = "" :=
  ⟨(C6_batch_defaults defaultsRow defaultsRec rfl).1 rfl,
   (C6_batch_defaults defaultsRow defaultsRec rfl).2.2.1 rfl,
   (C6_batch_defaults defaultsRow defaultsRec rfl).2.2.2 rfl⟩

/-- C7 counterexample: on the manual path (with the intended volume
assignment) a context typed as " PRE_VOID " is stripped but not lower-cased:
the constructed record holds "PRE_VOID", not the trimmed-and-lower-cased
"pre_void" the claim requires on every ingestion path. -/
theorem C7_manual_context_counterexample :
    (manual_entry_intended "P1" "2024-01-15 10:30" 2 2 2 none " PRE_VOID " ""
        []).toOption.map (fun p => p.1.context) = some "PRE_VOID" ∧
      ("PRE_VOID" : String) ≠ pyLower (pyStrip " PRE_VOID ") :=
  ⟨rfl, by decide⟩

/-- C7 (amended): the batch path strips and lower-cases `context`; the manual
path strips `context` with no case change; `patient_id` and `notes` are
stripped only, with no case change, on both paths. -/
theorem C7_trim_policy :
    (∀ row rec, _process_csv_row row = .ok rec →
      (∀ c, row.context = some c → rec.context = pyLower (pyStrip c)) ∧
      (∀ p, row.patient_id = some p → rec.patient_id = pyStrip p) ∧
      (∀ n, row.notes = some n → rec.notes = pyStrip n)) ∧
    (∀ pid ts length width depth vv cx nt es rec es',
      manual_entry_intended pid ts length width depth vv cx nt es = .ok (rec, es') →
      rec.context = pyStrip cx ∧ rec.patient_id = pyStrip pid ∧
        rec.notes = pyStrip nt) := by
  constructor
  · intro row rec h
    obtain ⟨p, t, lc, wc, dc, vv, cx, nt⟩ := row
    unfold _process_csv_row _process_csv_row_gen at h
    cases p with
    | none => exact absurd h (by simp)
    | some pid =>
    cases t with
    | none => exact absurd h (by simp)
    | some ts =>
    cases lc with
    | none => exact absurd h (by simp)
    | some length =>
    cases wc with
    | none => exact absurd h (by simp)
    | some width =>
    cases dc with
    | none => exact absurd h (by simp)
    | some depth =>
    dsimp only at h ⊢
    cases hval : _validate_measurements length width depth with
    | error e => rw [hval] at h; exact absurd h (by simp)
    | ok u =>
      rw [hval] at h
      simp only [Except.ok.injEq] at h
      subst h
      refine ⟨fun c hc => ?_, ?_, fun n hn => ?_⟩ <;> subst_vars <;> simp
  · intro pid ts length width depth vv cx nt es rec es' h
    unfold manual_entry_intended at h
    split at h
    · cases h
    · cases h
      simp

/-- C7 witness: the batch record from `goodRow` has its context stripped and
lower-cased, while the manual record keeps the stripped context's case. -/
theorem C7_trim_policy_witness :
    goodRec.context = pyLower (pyStrip "pre_void") ∧
      manualRec.context = pyStrip " PRE_VOID " :=
  ⟨(C7_trim_policy.1 goodRow goodRec rfl).1 "pre_void" rfl,
   (C7_trim_policy.2 "P1" "2024-01-15 10:30" 2 2 2 none " PRE_VOID " "" []
      manualRec [manualRec] rfl).1⟩

/-- C8: batch import on a missing file reports the failure, returns an empty
result set instead of raising, and leaves the store unchanged. -/
theorem C8_file_not_found (csv_filepath : String)
    (entries : List MeasurementRecord) :
    auto_entry csv_filepath none entries =
      (.ok [], entries, ["File not found: " ++ csv_filepath]) := rfl

/-- C9 counterexample: clearing a non-empty store and listing gives
`pd.DataFrame([])`, which has no columns: the header is empty, not the full
MeasurementRecord column header the claim promises. -/
theorem C9_empty_header_counterexample :
    (get_entries (clear_entries [goodRec])).rows = [] ∧
    (get_entries (clear_entries [goodRec])).header ≠ recordColumns :=
  ⟨rfl, by decide⟩

/-- C9 (amended): `clear()` followed by `get_entries` yields a table with zero
rows and no columns at all (pandas builds an empty frame, with an empty column
set, from the empty entry list), rather than the full defined header. -/
theorem C9_clear_then_list (entries : List MeasurementRecord) :
    (get_entries (clear_entries entries)).rows = [] ∧
    (get_entries (clear_entries entries)).header = [] := ⟨rfl, rfl⟩

/-- C10: when a row of a batch file fails (here: after some rows succeeded),
the exception propagates uncaught out of `auto_entry` and the records from the
earlier successful rows of the same file stay appended to the store — neither
rollback nor skip-and-continue. -/
theorem C10_partial_import (csv_filepath : String) (pre : List CsvRow)
    (bad : CsvRow) (rest : List CsvRow) (entries recs : List MeasurementRecord)
    (e : String) (hpre : processedOk pre = some recs)
    (hbad : _process_csv_row bad = .error e) :
    auto_entry csv_filepath (some (pre ++ bad :: rest)) entries =
      (.error e, entries ++ recs, []) := by
  have h := processRows_append_of_processedOk pre bad rest entries recs e hpre hbad
  simp [auto_entry, h]

/-- C10 witness: importing a file whose first row is valid and whose second has
length -1 raises the validation error and leaves the first row's record in the
store. -/
theorem C10_partial_import_witness :
    auto_entry "batch.csv" (some [goodRow, badRow]) [] =
      (.error ("Length must be positive, got " ++ toString (-1 : ℚ) ++ "cm"),
        [goodRec], []) :=
  C10_partial_import "batch.csv" [goodRow] badRow [] [] [goodRec] _ rfl rfl
